import Mathlib

/-
Verification of the pg1000cc MIDI translator (src/main.rs).

The program translates Roland PG-1000 vendor SysEx frames into standard MIDI
Control Change messages.  The embedding below follows the source closely:

* Rust i8 (the type MidiValue) is modelled as Int together with explicit
  two's-complement wrapping where the source performs i8 arithmetic
  (release-mode wrapping semantics).
* Rust u8/u16/u64/usize values are modelled as Nat with explicit mod 2^w
  where overflow or a narrowing cast matters.
* Rust f64 arithmetic (used by MidiRange::value_in_other_range) is modelled
  exactly: an IEEE-754 binary64 number is a dyadic rational man * 2 ^ exp
  (plus infinities and NaN), and every operation rounds its exact result to
  53 significant bits with round-to-nearest, ties-to-even, exactly as the
  hardware does.  All magnitudes reached in this development are far inside
  the normal range of binary64, so exponent overflow and subnormals cannot
  occur and are not modelled.
* The HashMap of sliders is modelled as the insertion list; lookup returns
  the value of the last matching insertion (HashMap::insert overwrites).
* The MIDI output port is modelled by returning the list of byte buffers
  written during one dispatch call.
-/

namespace Pg1000CC

/-- Reinterpret a byte (u8) as a Rust i8 value: two's complement. -/
def i8ofNat (b : Nat) : Int :=
  if b % 256 < 128 then ((b % 256 : Nat) : Int) else ((b % 256 : Nat) : Int) - 256

/-- Wrap an integer into the i8 range [-128, 127] (release-mode i8 arithmetic). -/
def i8wrap (n : Int) : Int := (n + 128) % 256 - 128

/-- The Rust cast (x : i8) as usize: sign extension, i.e. reduction mod 2^64. -/
def usizeOfI8 (n : Int) : Nat := (n % (2 : Int) ^ 64).toNat

/-- Fuel-driven helper for bitLen; structural in the fuel so that the kernel
can evaluate it. -/
def bitLenAux : Nat → Nat → Nat
  | 0, _ => 0
  | fuel + 1, n => if n = 0 then 0 else bitLenAux fuel (n / 2) + 1

/-- Number of binary digits of n (0 for 0).  bitLen n = k iff 2^(k-1) ≤ n < 2^k. -/
def bitLen (n : Nat) : Nat := bitLenAux n n

/-- Round m / 2^s to an integer with round-to-nearest, ties-to-even.
sticky records that an additional strictly positive quantity smaller than one
unit in the last discarded place has already been cut off below m. -/
def roundShift (m : Nat) (s : Nat) (sticky : Bool) : Nat :=
  if s = 0 then m
  else
    let q := m / 2 ^ s
    let r := m % 2 ^ s
    let half := 2 ^ (s - 1)
    if r < half then q
    else if half < r then q + 1
    else if sticky then q + 1
    else if q % 2 = 0 then q else q + 1

/-- An IEEE-754 binary64 value: a finite dyadic rational man * 2 ^ exp, or an
infinity, or NaN.  The finite representation is not required to be
normalised; every arithmetic operation rounds to at most 53 significant
bits, as binary64 does. -/
inductive F64 where
  | finite (man : Int) (exp : Int)
  | posInf
  | negInf
  | nan
deriving DecidableEq

/-- Round the exact dyadic value m * 2 ^ e to 53 significant bits
(round-to-nearest, ties-to-even). -/
def rnd53 (m : Int) (e : Int) : F64 :=
  if m = 0 then .finite 0 0
  else
    let n := m.natAbs
    let len := bitLen n
    if len ≤ 53 then .finite m e
    else
      let s := len - 53
      let q := roundShift n s false
      .finite (if 0 ≤ m then (q : Int) else -(q : Int)) (e + s)

/-- binary64 addition. -/
def fadd : F64 → F64 → F64
  | .finite m1 e1, .finite m2 e2 =>
      let e := min e1 e2
      rnd53 (m1 * (2 : Int) ^ (e1 - e).toNat + m2 * (2 : Int) ^ (e2 - e).toNat) e
  | .nan, _ => .nan
  | _, .nan => .nan
  | .posInf, .negInf => .nan
  | .negInf, .posInf => .nan
  | .posInf, _ => .posInf
  | _, .posInf => .posInf
  | .negInf, _ => .negInf
  | _, .negInf => .negInf

/-- binary64 multiplication. -/
def fmul : F64 → F64 → F64
  | .finite m1 e1, .finite m2 e2 => rnd53 (m1 * m2) (e1 + e2)
  | .nan, _ => .nan
  | _, .nan => .nan
  | .posInf, .finite m _ => if m = 0 then .nan else if 0 < m then .posInf else .negInf
  | .finite m _, .posInf => if m = 0 then .nan else if 0 < m then .posInf else .negInf
  | .negInf, .finite m _ => if m = 0 then .nan else if 0 < m then .negInf else .posInf
  | .finite m _, .negInf => if m = 0 then .nan else if 0 < m then .negInf else .posInf
  | .posInf, .posInf => .posInf
  | .posInf, .negInf => .negInf
  | .negInf, .posInf => .negInf
  | .negInf, .negInf => .posInf

/-- binary64 division.  Division of a nonzero finite value by (positive) zero
yields a signed infinity and 0/0 yields NaN, as in IEEE-754.  For nonzero
finite operands the quotient is computed with 64 + bitLen divisor guard bits
and a sticky bit, which makes the final 53-bit rounding exact. -/
def fdiv : F64 → F64 → F64
  | .finite m1 e1, .finite m2 e2 =>
      if m2 = 0 then
        (if m1 = 0 then .nan else if 0 < m1 then .posInf else .negInf)
      else if m1 = 0 then .finite 0 0
      else
        let H := 64 + bitLen m2.natAbs
        let a := m1.natAbs * 2 ^ H
        let b := m2.natAbs
        let q := a / b
        let r := a % b
        let s := bitLen q - 53
        let q2 := roundShift q s (r != 0)
        let sgn : Int := if (0 ≤ m1) = (0 ≤ m2) then 1 else -1
        .finite (sgn * (q2 : Int)) (e1 - e2 - H + s)
  | .nan, _ => .nan
  | _, .nan => .nan
  | .finite _ _, .posInf => .finite 0 0
  | .finite _ _, .negInf => .finite 0 0
  | .posInf, .finite m _ => if 0 ≤ m then .posInf else .negInf
  | .negInf, .finite m _ => if 0 ≤ m then .negInf else .posInf
  | _, _ => .nan

/-- The Rust cast (x : f64) as i8: truncation toward zero, saturating at the
type bounds; NaN casts to 0. -/
def f64toI8 : F64 → Int
  | .nan => 0
  | .posInf => 127
  | .negInf => -128
  | .finite m e =>
      let t : Int :=
        if 0 ≤ e then m * (2 : Int) ^ e.toNat
        else
          let k := (-e).toNat
          if 0 ≤ m then ((m.natAbs / 2 ^ k : Nat) : Int)
          else -((m.natAbs / 2 ^ k : Nat) : Int)
      max (-128) (min 127 t)

/-- The Rust cast (n : i8) as f64 (exact; rnd53 is the identity on small
integers). -/
def intToF64 (n : Int) : F64 := rnd53 n 0

/-- The Rust cast (n : usize) as f64 (rounds when n needs more than 53 bits). -/
def natToF64 (n : Nat) : F64 := rnd53 (n : Int) 0

/-- struct MidiRange: lo and hi are MidiValue = i8, modelled as Int. -/
structure MidiRange where
  lo : Int
  hi : Int
deriving DecidableEq

/-- MidiRange::width: (self.hi - self.lo) as usize, where hi - lo is i8
arithmetic (wrapping) and the cast sign-extends. -/
def MidiRange.width (r : MidiRange) : Nat := usizeOfI8 (i8wrap (r.hi - r.lo))

/-- MidiRange::relative_to_absolute:
(self.lo as f64 + relative * self.width() as f64) as MidiValue. -/
def MidiRange.relative_to_absolute (r : MidiRange) (relative : F64) : Int :=
  f64toI8 (fadd (intToF64 r.lo) (fmul relative (natToF64 r.width)))

/-- MidiRange::value_in_other_range:
let relative = (value - self.lo) as f64 / self.width() as f64;
other_range.relative_to_absolute(relative). -/
def MidiRange.value_in_other_range (r : MidiRange) (value : Int)
    (other_range : MidiRange) : Int :=
  let relative := fdiv (intToF64 (i8wrap (value - r.lo))) (natToF64 r.width)
  other_range.relative_to_absolute relative

/-- struct Slider. -/
structure Slider where
  sysex_id : Nat
  cc_id : Nat
  sysex_range : MidiRange
  cc_range : MidiRange
deriving DecidableEq

/-- Slider::sysex_value_as_cc_value. -/
def Slider.sysex_value_as_cc_value (s : Slider) (value : Int) : Int :=
  s.sysex_range.value_in_other_range value s.cc_range

/-- struct ControlMessage: cc is a CcId = u8, value a MidiValue = i8,
channel a u8. -/
structure ControlMessage where
  cc : Nat
  value : Int
  channel : Nat
deriving DecidableEq

/-- ControlMessage::to_bytes: [0xb0 | (channel & 0x0F), cc & 0x7F,
(value & 0x7F) as u8].  On an i8 the mask value & 0x7F selects the low 7
bits of the two's complement representation, i.e. value mod 128. -/
def ControlMessage.to_bytes (msg : ControlMessage) : List Nat :=
  [0xb0 ||| (msg.channel &&& 0b00001111),
   msg.cc &&& 0b01111111,
   (msg.value % 128).toNat]

/-- struct Pg1000SysExMessage: id is a SysExId = u16, value a MidiValue = i8. -/
structure Pg1000SysExMessage where
  id : Nat
  value : Int
deriving DecidableEq

/-- Pg1000SysExMessage::from_bytes.  The id is (bytes[6] as u16) << 8 |
bytes[7] as u16 (no u16 overflow is possible since both bytes are < 256);
the value is bytes[8] as i8 (a two's-complement reinterpretation). -/
def Pg1000SysExMessage.from_bytes (bytes : List Nat) :
    Except String Pg1000SysExMessage :=
  if bytes.length ≠ 11 then .error "wrong length"
  else if bytes.getD 0 0 ≠ 0xf0 then .error "wrong status byte"
  else
    .ok { id := ((bytes.getD 6 0 % 256) <<< 8) ||| (bytes.getD 7 0 % 256),
          value := i8ofNat (bytes.getD 8 0) }

/-- The decoder's classification as seen by the dispatcher: Mapper::map
treats from_bytes(...).ok() as Some (vendor frame) versus None
(anything else, passed through unchanged). -/
inductive DecodedMessage where
  | vendorSysEx (msg : Pg1000SysExMessage)
  | unrecognized (bytes : List Nat)
deriving DecidableEq

/-- Total classification of an input buffer, as performed inside Mapper::map. -/
def decode (bytes : List Nat) : DecodedMessage :=
  match (Pg1000SysExMessage.from_bytes bytes).toOption with
  | some m => .vendorSysEx m
  | none => .unrecognized bytes

/-- Mapper::FREE_CCS: the undefined CC numbers from the MIDI standard. -/
def FREE_CCS : List Nat :=
  [3, 9, 14, 15, 20, 21, 22, 23, 24, 25, 26, 27, 28, 29, 30, 31,
   85, 86, 87, 88, 89, 90, 102, 103, 104, 105, 106, 107, 108, 109,
   110, 111, 112, 113, 114, 115, 116, 117, 118, 119]

/-- The compiled-in slider table of Mapper::new, as the exact sequence of
HashMap::insert calls (key, value), in source order.  Note the key 0x0113
is inserted twice. -/
def pgTable : List (Nat × Slider) :=
  let default_cc_range : MidiRange := { lo := 0, hi := 127 }
  let default_sysex_range : MidiRange := { lo := 0, hi := 100 }
  [(0x0319, { sysex_id := 0x0319, cc_id := FREE_CCS.getD 0 0,
              sysex_range := default_sysex_range, cc_range := default_cc_range }),
   (0x0318, { sysex_id := 0x0318, cc_id := FREE_CCS.getD 1 0,
              sysex_range := default_sysex_range, cc_range := default_cc_range }),
   (0x0321, { sysex_id := 0x0321, cc_id := FREE_CCS.getD 2 0,
              sysex_range := default_sysex_range, cc_range := default_cc_range }),
   (0x031C, { sysex_id := 0x031C, cc_id := FREE_CCS.getD 3 0,
              sysex_range := default_sysex_range, cc_range := default_cc_range }),
   (0x0323, { sysex_id := 0x0323, cc_id := FREE_CCS.getD 4 0,
              sysex_range := default_sysex_range, cc_range := default_cc_range }),
   (0x0324, { sysex_id := 0x0324, cc_id := FREE_CCS.getD 5 0,
              sysex_range := default_sysex_range, cc_range := default_cc_range }),
   (0x012F, { sysex_id := 0x012F, cc_id := FREE_CCS.getD 6 0,
              sysex_range := default_sysex_range, cc_range := default_cc_range }),
   (0x0116, { sysex_id := 0x0116, cc_id := FREE_CCS.getD 7 0,
              sysex_range := default_sysex_range, cc_range := default_cc_range }),
   (0x0117, { sysex_id := 0x0117, cc_id := FREE_CCS.getD 8 0,
              sysex_range := default_sysex_range, cc_range := default_cc_range }),
   (0x0118, { sysex_id := 0x0118, cc_id := FREE_CCS.getD 9 0,
              sysex_range := default_sysex_range, cc_range := default_cc_range }),
   (0x011A, { sysex_id := 0x011A, cc_id := FREE_CCS.getD 10 0,
              sysex_range := default_sysex_range, cc_range := default_cc_range }),
   (0x011B, { sysex_id := 0x011B, cc_id := FREE_CCS.getD 11 0,
              sysex_range := default_sysex_range, cc_range := default_cc_range }),
   (0x011E, { sysex_id := 0x011E, cc_id := FREE_CCS.getD 12 0,
              sysex_range := default_sysex_range, cc_range := default_cc_range }),
   (0x011F, { sysex_id := 0x011F, cc_id := FREE_CCS.getD 13 0,
              sysex_range := default_sysex_range, cc_range := default_cc_range }),
   (0x0122, { sysex_id := 0x0122, cc_id := FREE_CCS.getD 14 0,
              sysex_range := default_sysex_range, cc_range := default_cc_range }),
   (0x0123, { sysex_id := 0x0123, cc_id := FREE_CCS.getD 15 0,
              sysex_range := default_sysex_range, cc_range := default_cc_range }),
   (0x012B, { sysex_id := 0x012B, cc_id := FREE_CCS.getD 16 0,
              sysex_range := default_sysex_range, cc_range := default_cc_range }),
   (0x012C, { sysex_id := 0x012C, cc_id := FREE_CCS.getD 17 0,
              sysex_range := default_sysex_range, cc_range := default_cc_range }),
   (0x0320, { sysex_id := 0x0320, cc_id := FREE_CCS.getD 18 0,
              sysex_range := default_sysex_range, cc_range := default_cc_range }),
   (0x0111, { sysex_id := 0x0111, cc_id := FREE_CCS.getD 19 0,
              sysex_range := default_sysex_range, cc_range := default_cc_range }),
   (0x0112, { sysex_id := 0x0112, cc_id := FREE_CCS.getD 20 0,
              sysex_range := default_sysex_range, cc_range := default_cc_range }),
   (0x0113, { sysex_id := 0x0113, cc_id := FREE_CCS.getD 21 0,
              sysex_range := default_sysex_range, cc_range := default_cc_range }),
   (0x0113, { sysex_id := 0x0113, cc_id := FREE_CCS.getD 21 0,
              sysex_range := default_sysex_range, cc_range := default_cc_range }),
   (0x0114, { sysex_id := 0x0114, cc_id := FREE_CCS.getD 22 0,
              sysex_range := default_sysex_range, cc_range := default_cc_range }),
   (0x0115, { sysex_id := 0x0115, cc_id := FREE_CCS.getD 23 0,
              sysex_range := default_sysex_range, cc_range := default_cc_range }),
   (0x010D, { sysex_id := 0x010D, cc_id := FREE_CCS.getD 24 0,
              sysex_range := { lo := 0, hi := 0x32 }, cc_range := default_cc_range }),
   (0x010E, { sysex_id := 0x010E, cc_id := FREE_CCS.getD 25 0,
              sysex_range := { lo := 0, hi := 0x32 }, cc_range := default_cc_range }),
   (0x010F, { sysex_id := 0x010F, cc_id := FREE_CCS.getD 26 0,
              sysex_range := { lo := 0, hi := 0x32 }, cc_range := default_cc_range }),
   (0x0110, { sysex_id := 0x0110, cc_id := FREE_CCS.getD 27 0,
              sysex_range := { lo := 0, hi := 0x32 }, cc_range := default_cc_range })]

/-- HashMap::get on the model of the slider map: the value of the most
recent insertion with the given key (HashMap::insert overwrites). -/
def hashMapGet (t : List (Nat × Slider)) (key : Nat) : Option Slider :=
  (t.reverse.find? (fun p => p.fst == key)).map (fun p => p.snd)

/-- struct Mapper.  The MidiOutputConnection is external; writes to it are
returned by Mapper.map instead.  event_count and cc_event_count are u64. -/
structure Mapper where
  sliders : List (Nat × Slider)
  channel : Nat
  event_count : Nat
  cc_event_count : Nat
deriving DecidableEq

/-- Mapper::new. -/
def Mapper.new (channel : Nat) : Mapper :=
  { sliders := pgTable, channel := channel, event_count := 0, cc_event_count := 0 }

/-- Mapper::map, one dispatch call.  Returns the updated mapper state and
the list of byte buffers written to the output port during the call. -/
def Mapper.map (m : Mapper) (message : List Nat) : Mapper × List (List Nat) :=
  let m1 := { m with event_count := (m.event_count + 1) % 2 ^ 64 }
  match (Pg1000SysExMessage.from_bytes message).toOption with
  | some sysex =>
      match hashMapGet m1.sliders sysex.id with
      | some slider =>
          let cc := ControlMessage.mk slider.cc_id
            (slider.sysex_value_as_cc_value sysex.value) m1.channel
          ({ m1 with cc_event_count := (m1.cc_event_count + 1) % 2 ^ 64 },
           [cc.to_bytes])
      | none => (m1, [])
  | none => (m1, [message])

/-! Helper lemmas. -/

/-- Shifting left by n and or-ing in a value below 2 ^ n is base-2^n digit
concatenation. -/
theorem shiftLeft_lor_eq (a b n : Nat) (hb : b < 2 ^ n) :
    a <<< n ||| b = a * 2 ^ n + b := by
  apply Nat.eq_of_testBit_eq
  intro j
  rw [Nat.testBit_lor, Nat.testBit_shiftLeft]
  rcases Nat.lt_or_ge j n with hj | hj
  · have hd : decide (j ≥ n) = false := by simp; omega
    rw [hd]
    simp only [Bool.false_and, Bool.false_or]
    rw [Nat.testBit_to_div_mod, Nat.testBit_to_div_mod]
    have hp : (2 : Nat) ^ n = 2 ^ j * (2 * 2 ^ (n - j - 1)) := by
      rw [← pow_succ' 2 (n - j - 1), ← pow_add]
      congr 1
      omega
    have h1 : a * 2 ^ n + b = 2 ^ j * (2 * (a * 2 ^ (n - j - 1))) + b := by
      rw [hp]; ring
    rw [h1, Nat.mul_add_div (Nat.two_pow_pos j), Nat.mul_add_mod]
  · have hd : decide (j ≥ n) = true := by simp; omega
    rw [hd]
    simp only [Bool.true_and]
    have hbj : b.testBit j = false := by
      rw [Nat.testBit_to_div_mod,
        Nat.div_eq_of_lt (lt_of_lt_of_le hb (Nat.pow_le_pow_right (by norm_num) hj))]
      simp
    rw [hbj, Bool.or_false, Nat.testBit_to_div_mod, Nat.testBit_to_div_mod]
    have h2 : a * 2 ^ n + b = 2 ^ n * a + b := by ring
    have h3 : (2 : Nat) ^ j = 2 ^ n * 2 ^ (j - n) := by
      rw [← pow_add]; congr 1; omega
    rw [h2, h3, ← Nat.div_div_eq_div_mul, Nat.mul_add_div (Nat.two_pow_pos n),
      Nat.div_eq_of_lt hb, Nat.add_zero]

/-- Masking with 0x0F extracts the value mod 16. -/
theorem and_fifteen (c : Nat) : c &&& 15 = c % 16 := by
  have h := Nat.and_pow_two_sub_one_eq_mod c 4
  norm_num at h
  exact h

/-- Masking with 0x7F extracts the value mod 128. -/
theorem and_onetwentyseven (c : Nat) : c &&& 127 = c % 128 := by
  have h := Nat.and_pow_two_sub_one_eq_mod c 7
  norm_num at h
  exact h

/-- Or-ing the Control Change status nibble 0xB0 with a low nibble is
addition. -/
theorem lor_statusByte (z : Nat) (hz : z < 16) : 0xb0 ||| z = 0xb0 + z := by
  have h := shiftLeft_lor_eq 11 z 4 (by omega)
  rw [Nat.shiftLeft_eq] at h
  norm_num at h
  exact h

/-- Bytes of an 11-byte buffer are below 256 whenever all entries are. -/
theorem getD_lt (msg : List Nat) (i : Nat) (hlen : msg.length = 11)
    (hb : ∀ b ∈ msg, b < 256) (hi : i < 11) : msg.getD i 0 < 256 := by
  rw [List.getD_eq_getElem msg 0 (show i < msg.length by omega)]
  exact hb _ (List.getElem_mem _)

/-- Characterization of from_bytes on a well-formed vendor frame. -/
theorem from_bytes_spec (msg : List Nat) (hlen : msg.length = 11)
    (hb : ∀ b ∈ msg, b < 256) (h0 : msg.getD 0 0 = 0xf0) :
    Pg1000SysExMessage.from_bytes msg =
      .ok { id := msg.getD 6 0 * 256 + msg.getD 7 0,
            value := i8ofNat (msg.getD 8 0) } := by
  have h6 := getD_lt msg 6 hlen hb (by omega)
  have h7 := getD_lt msg 7 hlen hb (by omega)
  unfold Pg1000SysExMessage.from_bytes
  rw [if_neg (by omega), if_neg (by rw [h0]; omega)]
  have hid : ((msg.getD 6 0 % 256) <<< 8) ||| (msg.getD 7 0 % 256) =
      msg.getD 6 0 * 256 + msg.getD 7 0 := by
    rw [Nat.mod_eq_of_lt h6, Nat.mod_eq_of_lt h7,
      shiftLeft_lor_eq _ _ 8 (by omega)]
    norm_num
  rw [hid]

/-- Every slider value stored in the compiled-in table has a cc id below
128. -/
theorem hashMapGet_cc_lt (k : Nat) (s : Slider)
    (h : hashMapGet pgTable k = some s) : s.cc_id < 128 := by
  unfold hashMapGet at h
  cases hf : pgTable.reverse.find? (fun p => p.fst == k) with
  | none => rw [hf] at h; exact absurd h (by simp)
  | some p =>
      rw [hf] at h
      have hp : p.snd = s := by simpa using h
      have hm : p ∈ pgTable := by
        rw [← List.mem_reverse]; exact List.mem_of_find?_eq_some hf
      have hall : ∀ q ∈ pgTable, q.snd.cc_id < 128 := by decide
      rw [← hp]
      exact hall p hm

/-! Theorems for the claims. -/

/-- C5: serialization of a ControlChangeMessage produces exactly the 3 bytes
[0xB0 | (channel & 0x0F), controller id & 0x7F, value & 0x7F]; in
particular cc = 40, value = 100, channel = 1 serializes to
[0xB1, 0x28, 0x64]. -/
theorem c5_to_bytes :
    (∀ (cc : Nat) (value : Int) (channel : Nat),
      ControlMessage.to_bytes { cc := cc, value := value, channel := channel } =
        [0xb0 + channel % 16, cc % 128, (value % 128).toNat])
    ∧ ControlMessage.to_bytes { cc := 40, value := 100, channel := 1 } =
        [0xb1, 0x28, 0x64] := by
  constructor
  · intro cc value channel
    unfold ControlMessage.to_bytes
    rw [and_fifteen, and_onetwentyseven,
      lor_statusByte _ (Nat.mod_lt _ (by norm_num))]
  · decide

/-- C2, counterexample: an 11-byte 0xF0 frame whose value byte has the high
bit set decodes to a negative value (bytes[8] as i8), not to the byte
itself: byte 0x80 = 128 decodes to -128. -/
theorem c2_counterexample :
    Pg1000SysExMessage.from_bytes [0xf0, 0, 0, 0, 0, 0, 0x03, 0x19, 0x80, 0, 0] =
      .ok { id := 0x0319, value := -128 } ∧ ((-128 : Int) ≠ 0x80) := by
  constructor
  · rfl
  · decide

/-- C2, amended: for every 11-byte buffer of bytes starting with 0xF0,
decoding yields the control id bytes[6] * 256 + bytes[7] (big-endian
16-bit) and the value bytes[8] reinterpreted as a signed 8-bit integer,
which equals bytes[8] itself whenever bytes[8] < 128. -/
theorem c2_decode (msg : List Nat) (hlen : msg.length = 11)
    (hb : ∀ b ∈ msg, b < 256) (h0 : msg.getD 0 0 = 0xf0) :
    Pg1000SysExMessage.from_bytes msg =
      .ok { id := msg.getD 6 0 * 256 + msg.getD 7 0,
            value := i8ofNat (msg.getD 8 0) }
    ∧ (msg.getD 8 0 < 128 → i8ofNat (msg.getD 8 0) = msg.getD 8 0) := by
  refine ⟨from_bytes_spec msg hlen hb h0, fun h => ?_⟩
  unfold i8ofNat
  rw [Nat.mod_eq_of_lt (lt_trans h (by norm_num)), if_pos h]

/-- C2 witness. -/
theorem c2_decode_witness :
    (([0xf0, 0, 0, 0, 0, 0, 0x03, 0x19, 50, 0, 0xf7] : List Nat).length = 11
      ∧ (∀ b ∈ ([0xf0, 0, 0, 0, 0, 0, 0x03, 0x19, 50, 0, 0xf7] : List Nat), b < 256)
      ∧ ([0xf0, 0, 0, 0, 0, 0, 0x03, 0x19, 50, 0, 0xf7] : List Nat).getD 0 0 = 0xf0)
    ∧ (Pg1000SysExMessage.from_bytes [0xf0, 0, 0, 0, 0, 0, 0x03, 0x19, 50, 0, 0xf7] =
        .ok { id := 0x0319, value := 50 }
      ∧ (([0xf0, 0, 0, 0, 0, 0, 0x03, 0x19, 50, 0, 0xf7] : List Nat).getD 8 0 < 128 →
          i8ofNat (([0xf0, 0, 0, 0, 0, 0, 0x03, 0x19, 50, 0, 0xf7] : List Nat).getD 8 0) =
            ([0xf0, 0, 0, 0, 0, 0, 0x03, 0x19, 50, 0, 0xf7] : List Nat).getD 8 0)) :=
  ⟨⟨by decide, by decide, by decide⟩,
    c2_decode [0xf0, 0, 0, 0, 0, 0, 0x03, 0x19, 50, 0, 0xf7]
      (by decide) (by decide) (by decide)⟩

/-- C3: any buffer that is not 11 bytes long or does not start with 0xF0 is
classified as unrecognized (a successful classification, not a failure of
dispatch), and one dispatch call forwards exactly the original bytes,
unchanged, as the single write to the output. -/
theorem c3_passthrough (m : Mapper) (msg : List Nat)
    (h : msg.length ≠ 11 ∨ msg.getD 0 0 ≠ 0xf0) :
    decode msg = .unrecognized msg ∧ (m.map msg).2 = [msg] := by
  have hnone : (Pg1000SysExMessage.from_bytes msg).toOption = none := by
    unfold Pg1000SysExMessage.from_bytes
    rcases h with h | h
    · rw [if_pos h]; rfl
    · by_cases hl : msg.length ≠ 11
      · rw [if_pos hl]; rfl
      · rw [if_neg hl, if_pos h]; rfl
  constructor
  · unfold decode
    rw [hnone]
  · unfold Mapper.map
    rw [hnone]

/-- C3 witness. -/
theorem c3_passthrough_witness :
    (([0x90, 60, 100] : List Nat).length ≠ 11 ∨
      ([0x90, 60, 100] : List Nat).getD 0 0 ≠ 0xf0)
    ∧ (decode [0x90, 60, 100] = .unrecognized [0x90, 60, 100]
      ∧ ((Mapper.new 1).map [0x90, 60, 100]).2 = [[0x90, 60, 100]]) :=
  ⟨Or.inl (by decide), c3_passthrough (Mapper.new 1) [0x90, 60, 100]
    (Or.inl (by decide))⟩

/-- C9, counterexample: a valid 11-byte vendor frame whose value byte is
0x80 decodes to the value -128, which does not lie in 0 to 127. -/
theorem c9_counterexample :
    Pg1000SysExMessage.from_bytes [0xf0, 0, 0, 0, 0, 0, 0, 0, 0x80, 0, 0] =
      .ok { id := 0, value := -128 } ∧ ¬ (0 ≤ (-128 : Int)) := by
  constructor
  · rfl
  · decide

/-- C9, amended: the decoded control value of a valid 11-byte vendor frame
lies in -128 to 127 (it is bytes[8] reinterpreted as i8); it lies in 0 to
127 exactly when the value byte has its high bit clear, in which case it
equals the byte; a value byte with the high bit set yields a negative
value. -/
theorem c9_value_range (msg : List Nat) (fr : Pg1000SysExMessage)
    (hlen : msg.length = 11) (hb : ∀ b ∈ msg, b < 256)
    (h0 : msg.getD 0 0 = 0xf0)
    (hok : Pg1000SysExMessage.from_bytes msg = .ok fr) :
    (-128 ≤ fr.value ∧ fr.value ≤ 127)
    ∧ (msg.getD 8 0 < 128 → fr.value = msg.getD 8 0 ∧ 0 ≤ fr.value)
    ∧ (128 ≤ msg.getD 8 0 → fr.value < 0) := by
  have h8 := getD_lt msg 8 hlen hb (by omega)
  rw [from_bytes_spec msg hlen hb h0] at hok
  have hv : fr.value = i8ofNat (msg.getD 8 0) := by
    cases hok; rfl
  have h8m : msg.getD 8 0 % 256 = msg.getD 8 0 := Nat.mod_eq_of_lt h8
  rw [hv]
  unfold i8ofNat
  rw [h8m]
  by_cases hlt : msg.getD 8 0 < 128
  · rw [if_pos hlt]
    refine ⟨⟨by omega, by omega⟩, fun _ => ⟨rfl, by omega⟩, fun hge => by omega⟩
  · rw [if_neg hlt]
    refine ⟨⟨by omega, by omega⟩, fun hc => absurd hc hlt, fun _ => by omega⟩

/-- C9 witness. -/
theorem c9_value_range_witness :
    (([0xf0, 0, 0, 0, 0, 0, 0x03, 0x18, 100, 0, 0] : List Nat).length = 11
      ∧ (∀ b ∈ ([0xf0, 0, 0, 0, 0, 0, 0x03, 0x18, 100, 0, 0] : List Nat), b < 256)
      ∧ ([0xf0, 0, 0, 0, 0, 0, 0x03, 0x18, 100, 0, 0] : List Nat).getD 0 0 = 0xf0
      ∧ Pg1000SysExMessage.from_bytes [0xf0, 0, 0, 0, 0, 0, 0x03, 0x18, 100, 0, 0] =
          .ok { id := 0x0318, value := 100 })
    ∧ ((-128 ≤ (100 : Int) ∧ (100 : Int) ≤ 127)
      ∧ (([0xf0, 0, 0, 0, 0, 0, 0x03, 0x18, 100, 0, 0] : List Nat).getD 8 0 < 128 →
          (100 : Int) = ([0xf0, 0, 0, 0, 0, 0, 0x03, 0x18, 100, 0, 0] : List Nat).getD 8 0
            ∧ 0 ≤ (100 : Int))
      ∧ (128 ≤ ([0xf0, 0, 0, 0, 0, 0, 0x03, 0x18, 100, 0, 0] : List Nat).getD 8 0 →
          (100 : Int) < 0)) :=
  ⟨⟨by decide, by decide, by decide, by rfl⟩,
    c9_value_range [0xf0, 0, 0, 0, 0, 0, 0x03, 0x18, 100, 0, 0]
      { id := 0x0318, value := 100 } (by decide) (by decide) (by decide) (by rfl)⟩

/-- C10: every entry of the compiled-in table binds a slider whose target
cc id is one of the undefined MIDI CC numbers (FREE_CCS), whose target
range is exactly [0, 127], whose source range is [0, 100] or [0, 50]
(hence of nonzero width), and which is keyed under its own vendor control
id. -/
theorem c10_table_invariant :
    ∀ p ∈ pgTable,
      p.snd.cc_id ∈ FREE_CCS
      ∧ p.snd.cc_range = { lo := 0, hi := 127 }
      ∧ (p.snd.sysex_range = { lo := 0, hi := 100 }
          ∨ p.snd.sysex_range = { lo := 0, hi := 50 })
      ∧ p.snd.sysex_range.width ≠ 0
      ∧ p.fst = p.snd.sysex_id := by
  decide

/-- C10 witness. -/
theorem c10_table_invariant_witness :
    (((0x0319 : Nat), ({ sysex_id := 0x0319, cc_id := 3, sysex_range := { lo := 0, hi := 100 }, cc_range := { lo := 0, hi := 127 } } : Slider)) ∈ pgTable)
    ∧ ((3 : Nat) ∈ FREE_CCS
      ∧ ({ lo := 0, hi := 127 } : MidiRange) = { lo := 0, hi := 127 }
      ∧ (({ lo := 0, hi := 100 } : MidiRange) = { lo := 0, hi := 100 }
          ∨ ({ lo := 0, hi := 100 } : MidiRange) = { lo := 0, hi := 50 })
      ∧ MidiRange.width { lo := 0, hi := 100 } ≠ 0
      ∧ (0x0319 : Nat) = 0x0319) :=
  ⟨by decide,
    c10_table_invariant (0x0319, { sysex_id := 0x0319, cc_id := 3, sysex_range := { lo := 0, hi := 100 }, cc_range := { lo := 0, hi := 127 } }) (by decide)⟩

/-- C8: the compiled-in table inserts the key 0x0113 twice (positions 21
and 22 of the insertion sequence), so its key sequence is not duplicate
free, yet construction succeeds with this table instead of rejecting the
duplicate (HashMap::insert silently overwrites). -/
theorem c8_duplicate_key :
    (pgTable.map Prod.fst).getD 21 0 = 0x0113
    ∧ (pgTable.map Prod.fst).getD 22 0 = 0x0113
    ∧ ¬ (pgTable.map Prod.fst).Nodup
    ∧ (Mapper.new 1).sliders = pgTable := by
  refine ⟨by decide, by decide, by decide, rfl⟩

/-- C7: for the degenerate source range [5, 5] (width 0) and target range
[0, 127], scaling neither fails nor is the constant target lo = 0: the f64
division by zero produces an infinity or NaN, and the saturating cast
turns value 10 into 127, value 5 into 0 and value 3 into -128. -/
theorem c7_degenerate_range :
    MidiRange.width { lo := 5, hi := 5 } = 0
    ∧ MidiRange.value_in_other_range { lo := 5, hi := 5 } 10 { lo := 0, hi := 127 } = 127
    ∧ MidiRange.value_in_other_range { lo := 5, hi := 5 } 5 { lo := 0, hi := 127 } = 0
    ∧ MidiRange.value_in_other_range { lo := 5, hi := 5 } 3 { lo := 0, hi := 127 } = -128
    ∧ ((127 : Int) ≠ 0) := by
  refine ⟨by decide, by decide, by decide, by decide, by decide⟩

/-- C6, counterexample: scaling value 7 from source range [0, 10] to target
range [0, 90] yields 62 in the code (f64 rounding makes
(7.0 / 10.0) * 90.0 slightly less than 63), while the exact floor formula
target lo + floor((value - source lo) * target width / source width)
yields 63. -/
theorem c6_counterexample :
    MidiRange.value_in_other_range { lo := 0, hi := 10 } 7 { lo := 0, hi := 90 } = 62
    ∧ (0 : Int) + (7 - 0) * (90 - 0) / (10 - 0) = 63
    ∧ ((62 : Int) ≠ 63) := by
  refine ⟨by decide, by decide, by decide⟩

set_option maxRecDepth 100000 in
/-- C6, amended: for the range pairs actually used by the program, source
[0, 100] or [0, 50] with target [0, 127], the code's f64 computation
agrees with target lo + floor((value - source lo) * target width /
source width) for every value in the source range; in particular value 50
in [0, 100] to [0, 127] yields 63.  (For other range pairs the f64
rounding can fall one below the exact floor formula, see the
counterexample.) -/
theorem c6_scale (v : Nat) (hv : v ≤ 100) :
    MidiRange.value_in_other_range { lo := 0, hi := 100 } (v : Int)
        { lo := 0, hi := 127 } = ((v * 127 / 100 : Nat) : Int)
    ∧ (v ≤ 50 →
        MidiRange.value_in_other_range { lo := 0, hi := 50 } (v : Int)
          { lo := 0, hi := 127 } = ((v * 127 / 50 : Nat) : Int)) := by
  revert hv
  revert v
  decide

/-- C6 witness. -/
theorem c6_scale_witness :
    (50 : Nat) ≤ 100
    ∧ (MidiRange.value_in_other_range { lo := 0, hi := 100 } ((50 : Nat) : Int)
          { lo := 0, hi := 127 } = ((50 * 127 / 100 : Nat) : Int)
      ∧ ((50 : Nat) ≤ 50 →
          MidiRange.value_in_other_range { lo := 0, hi := 50 } ((50 : Nat) : Int)
            { lo := 0, hi := 127 } = ((50 * 127 / 50 : Nat) : Int))) :=
  ⟨by decide, c6_scale 50 (by decide)⟩

/-- C1: for every 11-byte buffer of bytes starting with 0xF0 whose decoded
16-bit big-endian control id (bytes 6 and 7) is a key of the registry, one
dispatch call writes exactly one 3-byte Control Change message, whose
status byte carries the fixed output channel, whose controller id equals
the slider's target cc id, and whose value byte is the scaled value
slider.sysex_value_as_cc_value(frame value) masked to 7 bits; the
translated-event counter is incremented by one (wrapping at 2^64). -/
theorem c1_translate (m : Mapper) (msg : List Nat) (slider : Slider)
    (hreg : m.sliders = pgTable)
    (hlen : msg.length = 11)
    (hb : ∀ b ∈ msg, b < 256)
    (h0 : msg.getD 0 0 = 0xf0)
    (hs : hashMapGet pgTable (msg.getD 6 0 * 256 + msg.getD 7 0) = some slider) :
    (m.map msg).2 =
      [[0xb0 + m.channel % 16, slider.cc_id,
        ((slider.sysex_value_as_cc_value (i8ofNat (msg.getD 8 0))) % 128).toNat]]
    ∧ (m.map msg).1.cc_event_count = (m.cc_event_count + 1) % 2 ^ 64 := by
  have hfb := from_bytes_spec msg hlen hb h0
  have hcc := hashMapGet_cc_lt _ _ hs
  constructor
  · simp only [Mapper.map, hfb, Except.toOption, hreg, hs,
      ControlMessage.to_bytes]
    rw [and_fifteen, and_onetwentyseven,
      lor_statusByte _ (Nat.mod_lt _ (by norm_num)),
      Nat.mod_eq_of_lt hcc]
  · simp only [Mapper.map, hfb, Except.toOption, hreg, hs]

/-- C1 witness. -/
theorem c1_translate_witness :
    ((Mapper.new 1).sliders = pgTable
      ∧ ([0xf0, 65, 0, 0x22, 0x12, 0, 0x03, 0x19, 50, 0, 0xf7] : List Nat).length = 11
      ∧ (∀ b ∈ ([0xf0, 65, 0, 0x22, 0x12, 0, 0x03, 0x19, 50, 0, 0xf7] : List Nat), b < 256)
      ∧ ([0xf0, 65, 0, 0x22, 0x12, 0, 0x03, 0x19, 50, 0, 0xf7] : List Nat).getD 0 0 = 0xf0
      ∧ hashMapGet pgTable
          (([0xf0, 65, 0, 0x22, 0x12, 0, 0x03, 0x19, 50, 0, 0xf7] : List Nat).getD 6 0 * 256
            + ([0xf0, 65, 0, 0x22, 0x12, 0, 0x03, 0x19, 50, 0, 0xf7] : List Nat).getD 7 0) =
          some { sysex_id := 0x0319, cc_id := 3, sysex_range := { lo := 0, hi := 100 }, cc_range := { lo := 0, hi := 127 } })
    ∧ (((Mapper.new 1).map [0xf0, 65, 0, 0x22, 0x12, 0, 0x03, 0x19, 50, 0, 0xf7]).2 =
        [[0xb0 + (Mapper.new 1).channel % 16, 3,
          ((Slider.sysex_value_as_cc_value
              { sysex_id := 0x0319, cc_id := 3, sysex_range := { lo := 0, hi := 100 }, cc_range := { lo := 0, hi := 127 } }
              (i8ofNat (([0xf0, 65, 0, 0x22, 0x12, 0, 0x03, 0x19, 50, 0, 0xf7] : List Nat).getD 8 0))) % 128).toNat]]
      ∧ ((Mapper.new 1).map [0xf0, 65, 0, 0x22, 0x12, 0, 0x03, 0x19, 50, 0, 0xf7]).1.cc_event_count =
          ((Mapper.new 1).cc_event_count + 1) % 2 ^ 64) :=
  ⟨⟨rfl, by decide, by decide, by decide, by decide⟩,
    c1_translate (Mapper.new 1) [0xf0, 65, 0, 0x22, 0x12, 0, 0x03, 0x19, 50, 0, 0xf7]
      { sysex_id := 0x0319, cc_id := 3, sysex_range := { lo := 0, hi := 100 }, cc_range := { lo := 0, hi := 127 } }
      rfl (by decide) (by decide) (by decide) (by decide)⟩

/-- C4: for every 11-byte buffer of bytes starting with 0xF0 whose decoded
control id is not a key of the registry, one dispatch call writes nothing
to the output, leaves the translated-event counter unchanged, and still
advances the total-event counter by one (wrapping at 2^64). -/
theorem c4_unmapped (m : Mapper) (msg : List Nat)
    (hreg : m.sliders = pgTable)
    (hlen : msg.length = 11)
    (hb : ∀ b ∈ msg, b < 256)
    (h0 : msg.getD 0 0 = 0xf0)
    (hn : hashMapGet pgTable (msg.getD 6 0 * 256 + msg.getD 7 0) = none) :
    (m.map msg).2 = []
    ∧ (m.map msg).1.cc_event_count = m.cc_event_count
    ∧ (m.map msg).1.event_count = (m.event_count + 1) % 2 ^ 64 := by
  have hfb := from_bytes_spec msg hlen hb h0
  refine ⟨?_, ?_, ?_⟩ <;>
    simp only [Mapper.map, hfb, Except.toOption, hreg, hn]

/-- C4 witness. -/
theorem c4_unmapped_witness :
    ((Mapper.new 1).sliders = pgTable
      ∧ ([0xf0, 65, 0, 0x22, 0x12, 0, 0, 0, 50, 0, 0xf7] : List Nat).length = 11
      ∧ (∀ b ∈ ([0xf0, 65, 0, 0x22, 0x12, 0, 0, 0, 50, 0, 0xf7] : List Nat), b < 256)
      ∧ ([0xf0, 65, 0, 0x22, 0x12, 0, 0, 0, 50, 0, 0xf7] : List Nat).getD 0 0 = 0xf0
      ∧ hashMapGet pgTable
          (([0xf0, 65, 0, 0x22, 0x12, 0, 0, 0, 50, 0, 0xf7] : List Nat).getD 6 0 * 256
            + ([0xf0, 65, 0, 0x22, 0x12, 0, 0, 0, 50, 0, 0xf7] : List Nat).getD 7 0) = none)
    ∧ (((Mapper.new 1).map [0xf0, 65, 0, 0x22, 0x12, 0, 0, 0, 50, 0, 0xf7]).2 = []
      ∧ ((Mapper.new 1).map [0xf0, 65, 0, 0x22, 0x12, 0, 0, 0, 50, 0, 0xf7]).1.cc_event_count =
          (Mapper.new 1).cc_event_count
      ∧ ((Mapper.new 1).map [0xf0, 65, 0, 0x22, 0x12, 0, 0, 0, 50, 0, 0xf7]).1.event_count =
          ((Mapper.new 1).event_count + 1) % 2 ^ 64) :=
  ⟨⟨rfl, by decide, by decide, by decide, by decide⟩,
    c4_unmapped (Mapper.new 1) [0xf0, 65, 0, 0x22, 0x12, 0, 0, 0, 50, 0, 0xf7]
      rfl (by decide) (by decide) (by decide) (by decide)⟩

end Pg1000CC
